import Mathlib

/-!
Shallow embedding of `fel4-config` (file `src/types.rs`): the identifier
enums `SupportedTarget`, `SupportedPlatform`, `BuildProfile` with their
canonical string forms and parsers, the flat TOML value domain, and the
property-merge step of the resolver (the resolver itself is not in the
sources provided, so it is modelled from the specification where noted).
-/

set_option autoImplicit false

/-- Decidable equality for `Except`, used to settle parser results by
computation. -/
instance {ε α : Type} [DecidableEq ε] [DecidableEq α] : DecidableEq (Except ε α) := fun a b =>
  match a, b with
  | .error e, .error f =>
      if h : e = f then .isTrue (by rw [h]) else .isFalse (by intro hc; cases hc; exact h rfl)
  | .error _, .ok _ => .isFalse (by intro hc; cases hc)
  | .ok _, .error _ => .isFalse (by intro hc; cases hc)
  | .ok x, .ok y =>
      if h : x = y then .isTrue (by rw [h]) else .isFalse (by intro hc; cases hc; exact h rfl)

/-- Canonical string for `SupportedTarget::X8664Sel4Fel4` (src/types.rs line 54). -/
def TARGET_X86_64_SEL4_FEL4 : String := "x86_64-sel4-fel4"

/-- Canonical string for `SupportedTarget::Armv7Sel4Fel4` (src/types.rs line 55). -/
def TARGET_ARMV7_SEL4_FEL4 : String := "armv7-sel4-fel4"

/-- Canonical string for `SupportedTarget::Aarch64Sel4Fel4` (src/types.rs line 56). -/
def TARGET_AARCH64_SEL4_FEL4 : String := "aarch64-sel4-fel4"

/-- The `SupportedTarget` enum (src/types.rs lines 47-52). -/
inductive SupportedTarget where
  | X8664Sel4Fel4
  | Armv7Sel4Fel4
  | Aarch64Sel4Fel4
deriving DecidableEq, Fintype, Repr

/-- Embeds `SupportedTarget::full_name` (src/types.rs lines 59-65). -/
def SupportedTarget.full_name : SupportedTarget → String
  | .X8664Sel4Fel4 => TARGET_X86_64_SEL4_FEL4
  | .Armv7Sel4Fel4 => TARGET_ARMV7_SEL4_FEL4
  | .Aarch64Sel4Fel4 => TARGET_AARCH64_SEL4_FEL4

/-- Embeds `SupportedTarget::targets` (src/types.rs lines 67-73). -/
def SupportedTarget.targets : List SupportedTarget :=
  [.X8664Sel4Fel4, .Armv7Sel4Fel4, .Aarch64Sel4Fel4]

/-- Embeds `SupportedTarget::target_names` (src/types.rs lines 75-80). -/
def SupportedTarget.target_names : List String :=
  SupportedTarget.targets.map (fun t => t.full_name)

/-- Embeds `impl Display for SupportedTarget` (src/types.rs lines 83-87),
which writes `self.full_name()`. -/
def SupportedTarget.display (t : SupportedTarget) : String := t.full_name

/-- Embeds `impl FromStr for SupportedTarget` (src/types.rs lines 89-100):
an exact match against the three canonical strings; any other input is
returned verbatim as the error payload (`Err(s.to_string())`). -/
def SupportedTarget.from_str (s : String) : Except String SupportedTarget :=
  if s = TARGET_X86_64_SEL4_FEL4 then .ok .X8664Sel4Fel4
  else if s = TARGET_ARMV7_SEL4_FEL4 then .ok .Armv7Sel4Fel4
  else if s = TARGET_AARCH64_SEL4_FEL4 then .ok .Aarch64Sel4Fel4
  else .error s

/-- Canonical string for `SupportedPlatform::PC99` (src/types.rs line 109). -/
def PLATFORM_PC99 : String := "pc99"

/-- Canonical string for `SupportedPlatform::Sabre` (src/types.rs line 110). -/
def PLATFORM_SABRE : String := "sabre"

/-- Canonical string for `SupportedPlatform::Tx1` (src/types.rs line 111). -/
def PLATFORM_TX1 : String := "tx1"

/-- The `SupportedPlatform` enum (src/types.rs lines 102-107). -/
inductive SupportedPlatform where
  | PC99
  | Sabre
  | Tx1
deriving DecidableEq, Fintype, Repr

/-- Embeds `SupportedPlatform::full_name` (src/types.rs lines 114-120). -/
def SupportedPlatform.full_name : SupportedPlatform → String
  | .PC99 => PLATFORM_PC99
  | .Sabre => PLATFORM_SABRE
  | .Tx1 => PLATFORM_TX1

/-- Embeds `SupportedPlatform::platforms` (src/types.rs lines 122-128). -/
def SupportedPlatform.platforms : List SupportedPlatform :=
  [.PC99, .Sabre, .Tx1]

/-- Embeds `SupportedPlatform::platform_names` (src/types.rs lines 130-135). -/
def SupportedPlatform.platform_names : List String :=
  SupportedPlatform.platforms.map (fun p => p.full_name)

/-- Embeds `impl Display for SupportedPlatform` (src/types.rs lines 138-142),
which writes `self.full_name()`. -/
def SupportedPlatform.display (p : SupportedPlatform) : String := p.full_name

/-- Embeds `impl FromStr for SupportedPlatform` (src/types.rs lines 144-155). -/
def SupportedPlatform.from_str (s : String) : Except String SupportedPlatform :=
  if s = PLATFORM_PC99 then .ok .PC99
  else if s = PLATFORM_SABRE then .ok .Sabre
  else if s = PLATFORM_TX1 then .ok .Tx1
  else .error s

/-- Canonical string for `BuildProfile::Debug` (src/types.rs line 162). -/
def BUILD_PROFILE_DEBUG : String := "debug"

/-- Canonical string for `BuildProfile::Release` (src/types.rs line 163). -/
def BUILD_PROFILE_RELEASE : String := "release"

/-- The `BuildProfile` enum (src/types.rs lines 157-161). -/
inductive BuildProfile where
  | Debug
  | Release
deriving DecidableEq, Fintype, Repr

/-- Embeds `BuildProfile::full_name` (src/types.rs lines 165-170). -/
def BuildProfile.full_name : BuildProfile → String
  | .Debug => BUILD_PROFILE_DEBUG
  | .Release => BUILD_PROFILE_RELEASE

/-- Embeds `BuildProfile::build_profiles` (src/types.rs lines 172-174). -/
def BuildProfile.build_profiles : List BuildProfile :=
  [.Debug, .Release]

/-- Embeds `BuildProfile::build_profile_names` (src/types.rs lines 176-181). -/
def BuildProfile.build_profile_names : List String :=
  BuildProfile.build_profiles.map (fun b => b.full_name)

/-- Modelled from the spec: src/types.rs contains no `impl Display for
BuildProfile` (only `SupportedTarget` and `SupportedPlatform` have Display
impls there); spec section 4.1 requires Display output identical to
`full_name()` for every identifier enum. -/
def BuildProfile.display (b : BuildProfile) : String := b.full_name

/-- Embeds `impl FromStr for BuildProfile` (src/types.rs lines 184-194). -/
def BuildProfile.from_str (s : String) : Except String BuildProfile :=
  if s = BUILD_PROFILE_DEBUG then .ok .Debug
  else if s = BUILD_PROFILE_RELEASE then .ok .Release
  else .error s

/-- Model of a 64-bit IEEE-754 floating-point payload by its bit pattern
(Rust `f64`, src/types.rs line 40). The crate never computes with float
values, it only stores and compares them, so the bit pattern is the
faithful observable. -/
structure F64 where
  bits : Fin (2 ^ 64)
deriving DecidableEq, Repr

/-- Model of the external `toml::value::Datetime` type (src/types.rs line 44):
a datetime literal carried opaquely; the crate never inspects it. -/
structure TomlDatetime where
  literal : String
deriving DecidableEq, Repr

/-- Embeds `FlatTomlValue` (src/types.rs lines 33-45): the subset of
`toml::Value` that only includes non-nestable structures. `Integer` models
Rust `i64`. -/
inductive FlatTomlValue where
  | String (s : String)
  | Integer (i : Int)
  | Float (f : F64)
  | Boolean (b : Bool)
  | Datetime (d : TomlDatetime)
deriving DecidableEq, Repr

/-- Model of the external `toml::Value` type: the general TOML value domain,
including the nestable `Array` and `Table` shapes that `FlatTomlValue`
excludes. -/
inductive TomlValue where
  | String (s : String)
  | Integer (i : Int)
  | Float (f : F64)
  | Boolean (b : Bool)
  | Datetime (d : TomlDatetime)
  | Array (elems : List TomlValue)
  | Table (entries : List (String × TomlValue))

/-- Whether a general TOML value is a nested collection (array or table). -/
def TomlValue.isNested : TomlValue → Bool
  | .Array _ => true
  | .Table _ => true
  | _ => false

/-- The evident inclusion of the flat value domain into the general TOML
value domain, sending each `FlatTomlValue` constructor to the `toml::Value`
constructor it restricts. -/
def flatToToml : FlatTomlValue → TomlValue
  | .String s => .String s
  | .Integer i => .Integer i
  | .Float f => .Float f
  | .Boolean b => .Boolean b
  | .Datetime d => .Datetime d

/-- Embeds `FlatTomlProperty` (src/types.rs lines 20-24): a single toml
key-value pair where the value only includes non-nestable structures. -/
structure FlatTomlProperty where
  name : String
  value : FlatTomlValue
deriving DecidableEq, Repr

/-- Embeds `FlatTomlProperty::new` (src/types.rs lines 26-30). -/
def FlatTomlProperty.new (name : String) (value : FlatTomlValue) : FlatTomlProperty :=
  { name := name, value := value }

/-- Embeds `Fel4Config` (src/types.rs lines 8-16); the `properties` field
models `HashMap<String, FlatTomlValue>` as an association list with unique
keys. -/
structure Fel4Config where
  artifact_path : String
  target_specs_path : String
  target : SupportedTarget
  platform : SupportedPlatform
  build_profile : BuildProfile
  properties : List (String × FlatTomlValue)
deriving DecidableEq, Repr

/-- First-match lookup of a property name in an association list of
properties (the observable of a property mapping). -/
def lookupProp : List (String × FlatTomlValue) → String → Option FlatTomlValue
  | [], _ => none
  | p :: rest, n => if p.1 = n then some p.2 else lookupProp rest n

/-- Last-match lookup: the binding a map insertion sequence leaves in force
when the same name occurs more than once in one layer. -/
def lookupLast (m : List (String × FlatTomlValue)) (n : String) : Option FlatTomlValue :=
  lookupProp m.reverse n

/-- The first defined of two optional values (`Option.orElse` without the
thunk argument). -/
def firstSome (a b : Option FlatTomlValue) : Option FlatTomlValue :=
  match a with
  | some v => some v
  | none => b

/-- Modelled from the spec: map insertion for one property into a property
mapping — the new binding replaces any existing binding of the same name
(spec section 4.4 step 2: whole-value replacement per name). -/
def insertProp : List (String × FlatTomlValue) → String × FlatTomlValue →
    List (String × FlatTomlValue)
  | [], p => [p]
  | q :: rest, p => if q.1 = p.1 then insertProp rest p else q :: insertProp rest p

/-- Modelled from the spec: merging one higher-precedence layer into a
lower-precedence accumulated mapping by inserting its properties in order,
each insertion overwriting any same-named binding (spec section 4.4 step 2). -/
def mergeLayer (lower : List (String × FlatTomlValue))
    (upper : List (String × FlatTomlValue)) : List (String × FlatTomlValue) :=
  upper.foldl insertProp lower

/-- Modelled from the spec: the raw layered configuration (spec section 4.3) —
a global layer plus per-target, per-platform and per-profile layers, each a
property mapping (after duplicate-layer validation there is at most one
layer per scope, modelled as a function from the scope key). -/
structure LayeredConfig where
  global : List (String × FlatTomlValue)
  target_layer : SupportedTarget → List (String × FlatTomlValue)
  platform_layer : SupportedPlatform → List (String × FlatTomlValue)
  profile_layer : BuildProfile → List (String × FlatTomlValue)

/-- Modelled from the spec: the property-merging step of `resolve` (spec
section 4.4 step 2; the resolver implementation is not among the provided
sources). Merges in strict precedence order Global, then the requested
target's layer, then the requested platform's layer, then the requested
profile's layer. -/
def resolveProperties (cfg : LayeredConfig) (t : SupportedTarget)
    (p : SupportedPlatform) (b : BuildProfile) : List (String × FlatTomlValue) :=
  mergeLayer (mergeLayer (mergeLayer (mergeLayer [] cfg.global)
    (cfg.target_layer t)) (cfg.platform_layer p)) (cfg.profile_layer b)

theorem firstSome_none_right (a : Option FlatTomlValue) : firstSome a none = a := by
  cases a <;> rfl

theorem lookupProp_insertProp (m : List (String × FlatTomlValue))
    (p : String × FlatTomlValue) (n : String) :
    lookupProp (insertProp m p) n = if n = p.1 then some p.2 else lookupProp m n := by
  induction m with
  | nil =>
      simp only [insertProp, lookupProp]
      by_cases h : n = p.1
      · simp [h]
      · have hpn : ¬ p.1 = n := fun hh => h hh.symm
        simp [h, hpn]
  | cons q rest ih =>
      by_cases hq : q.1 = p.1
      · rw [show insertProp (q :: rest) p = insertProp rest p from by
          simp [insertProp, hq]]
        rw [ih]
        by_cases hn : n = p.1
        · simp [hn]
        · have hqn : ¬ q.1 = n := fun hh => hn (hh ▸ hq)
          simp [hn, lookupProp, hqn]
      · rw [show insertProp (q :: rest) p = q :: insertProp rest p from by
          simp [insertProp, hq]]
        by_cases hqn : q.1 = n
        · have hn : ¬ n = p.1 := fun hh => hq (hqn.symm ▸ hh)
          simp [lookupProp, hqn, hn]
        · simp [lookupProp, hqn, ih]

theorem lookupProp_append (xs ys : List (String × FlatTomlValue)) (n : String) :
    lookupProp (xs ++ ys) n = firstSome (lookupProp xs n) (lookupProp ys n) := by
  induction xs with
  | nil => simp [lookupProp, firstSome]
  | cons q rest ih =>
      by_cases hq : q.1 = n
      · simp [lookupProp, hq, firstSome]
      · simp [lookupProp, hq, ih]

theorem lookupProp_mergeLayer (up lo : List (String × FlatTomlValue)) (n : String) :
    lookupProp (mergeLayer lo up) n = firstSome (lookupLast up n) (lookupProp lo n) := by
  induction up generalizing lo with
  | nil => simp [mergeLayer, lookupLast, lookupProp, firstSome]
  | cons p rest ih =>
      have hstep : mergeLayer lo (p :: rest) = mergeLayer (insertProp lo p) rest := rfl
      rw [hstep, ih, lookupProp_insertProp]
      have hlast : lookupLast (p :: rest) n =
          firstSome (lookupLast rest n) (if p.1 = n then some p.2 else none) := by
        simp only [lookupLast, List.reverse_cons]
        rw [lookupProp_append]
        simp [lookupProp, firstSome_none_right]
      rw [hlast]
      cases hrest : lookupLast rest n with
      | some v => simp [firstSome]
      | none =>
          by_cases hn : n = p.1
          · simp [firstSome, hn]
          · have hpn : ¬ p.1 = n := fun hh => hn hh.symm
            simp [firstSome, hn, hpn]

theorem target_names_eq : SupportedTarget.target_names =
    [TARGET_X86_64_SEL4_FEL4, TARGET_ARMV7_SEL4_FEL4, TARGET_AARCH64_SEL4_FEL4] := by decide

theorem platform_names_eq : SupportedPlatform.platform_names =
    [PLATFORM_PC99, PLATFORM_SABRE, PLATFORM_TX1] := by decide

theorem build_profile_names_eq : BuildProfile.build_profile_names =
    [BUILD_PROFILE_DEBUG, BUILD_PROFILE_RELEASE] := by decide

theorem target_from_str_not_mem (s : String) (h : s ∉ SupportedTarget.target_names) :
    SupportedTarget.from_str s = Except.error s := by
  rw [target_names_eq] at h
  have h1 : ¬ s = TARGET_X86_64_SEL4_FEL4 := fun hh => h (by simp [hh])
  have h2 : ¬ s = TARGET_ARMV7_SEL4_FEL4 := fun hh => h (by simp [hh])
  have h3 : ¬ s = TARGET_AARCH64_SEL4_FEL4 := fun hh => h (by simp [hh])
  simp [SupportedTarget.from_str, h1, h2, h3]

theorem platform_from_str_not_mem (s : String) (h : s ∉ SupportedPlatform.platform_names) :
    SupportedPlatform.from_str s = Except.error s := by
  rw [platform_names_eq] at h
  have h1 : ¬ s = PLATFORM_PC99 := fun hh => h (by simp [hh])
  have h2 : ¬ s = PLATFORM_SABRE := fun hh => h (by simp [hh])
  have h3 : ¬ s = PLATFORM_TX1 := fun hh => h (by simp [hh])
  simp [SupportedPlatform.from_str, h1, h2, h3]

theorem build_profile_from_str_not_mem (s : String)
    (h : s ∉ BuildProfile.build_profile_names) :
    BuildProfile.from_str s = Except.error s := by
  rw [build_profile_names_eq] at h
  have h1 : ¬ s = BUILD_PROFILE_DEBUG := fun hh => h (by simp [hh])
  have h2 : ¬ s = BUILD_PROFILE_RELEASE := fun hh => h (by simp [hh])
  simp [BuildProfile.from_str, h1, h2]

theorem target_from_str_ok_mem (s : String) (t : SupportedTarget)
    (h : SupportedTarget.from_str s = Except.ok t) : s ∈ SupportedTarget.target_names := by
  rw [target_names_eq]
  simp only [SupportedTarget.from_str] at h
  split_ifs at h with h1 h2 h3
  · simp [h1]
  · simp [h2]
  · simp [h3]

theorem platform_from_str_ok_mem (s : String) (p : SupportedPlatform)
    (h : SupportedPlatform.from_str s = Except.ok p) :
    s ∈ SupportedPlatform.platform_names := by
  rw [platform_names_eq]
  simp only [SupportedPlatform.from_str] at h
  split_ifs at h with h1 h2 h3
  · simp [h1]
  · simp [h2]
  · simp [h3]

theorem build_profile_from_str_ok_mem (s : String) (b : BuildProfile)
    (h : BuildProfile.from_str s = Except.ok b) :
    s ∈ BuildProfile.build_profile_names := by
  rw [build_profile_names_eq]
  simp only [BuildProfile.from_str] at h
  split_ifs at h with h1 h2
  · simp [h1]
  · simp [h2]

/-- Claim C1: for every variant v of SupportedTarget, SupportedPlatform,
and BuildProfile, parsing the canonical string full_name(v) with the
corresponding from_str succeeds and returns exactly v. -/
theorem c1_parse_full_name_roundtrip :
    (∀ t : SupportedTarget, SupportedTarget.from_str t.full_name = Except.ok t) ∧
    (∀ p : SupportedPlatform, SupportedPlatform.from_str p.full_name = Except.ok p) ∧
    (∀ b : BuildProfile, BuildProfile.from_str b.full_name = Except.ok b) := by
  refine ⟨?_, ?_, ?_⟩ <;> decide

/-- Claim C2: for each identifier enum, from_str(s) succeeds if and only if
s is character-for-character one of that enum's canonical strings, and every
other string (trimmed, case-folded or otherwise near-miss spellings
included) is rejected with an error. -/
theorem c2_from_str_exact_match :
    (∀ s : String,
      (∃ t, SupportedTarget.from_str s = Except.ok t) ↔ s ∈ SupportedTarget.target_names) ∧
    (∀ s : String,
      (∃ p, SupportedPlatform.from_str s = Except.ok p) ↔ s ∈ SupportedPlatform.platform_names) ∧
    (∀ s : String,
      (∃ b, BuildProfile.from_str s = Except.ok b) ↔ s ∈ BuildProfile.build_profile_names) ∧
    (∀ s : String, s ∉ SupportedTarget.target_names →
      ∃ e, SupportedTarget.from_str s = Except.error e) ∧
    (∀ s : String, s ∉ SupportedPlatform.platform_names →
      ∃ e, SupportedPlatform.from_str s = Except.error e) ∧
    (∀ s : String, s ∉ BuildProfile.build_profile_names →
      ∃ e, BuildProfile.from_str s = Except.error e) := by
  refine ⟨?_, ?_, ?_, ?_, ?_, ?_⟩
  · intro s
    constructor
    · rintro ⟨t, ht⟩
      exact target_from_str_ok_mem s t ht
    · intro hs
      rw [target_names_eq] at hs
      simp only [List.mem_cons, List.not_mem_nil, or_false] at hs
      rcases hs with h | h | h <;> subst h
      · exact ⟨.X8664Sel4Fel4, by decide⟩
      · exact ⟨.Armv7Sel4Fel4, by decide⟩
      · exact ⟨.Aarch64Sel4Fel4, by decide⟩
  · intro s
    constructor
    · rintro ⟨p, hp⟩
      exact platform_from_str_ok_mem s p hp
    · intro hs
      rw [platform_names_eq] at hs
      simp only [List.mem_cons, List.not_mem_nil, or_false] at hs
      rcases hs with h | h | h <;> subst h
      · exact ⟨.PC99, by decide⟩
      · exact ⟨.Sabre, by decide⟩
      · exact ⟨.Tx1, by decide⟩
  · intro s
    constructor
    · rintro ⟨b, hb⟩
      exact build_profile_from_str_ok_mem s b hb
    · intro hs
      rw [build_profile_names_eq] at hs
      simp only [List.mem_cons, List.not_mem_nil, or_false] at hs
      rcases hs with h | h <;> subst h
      · exact ⟨.Debug, by decide⟩
      · exact ⟨.Release, by decide⟩
  · exact fun s hs => ⟨s, target_from_str_not_mem s hs⟩
  · exact fun s hs => ⟨s, platform_from_str_not_mem s hs⟩
  · exact fun s hs => ⟨s, build_profile_from_str_not_mem s hs⟩

/-- Claim C2 witness: the near-miss spellings " debug" (leading space) and
"PC99" (wrong case) are rejected. -/
theorem c2_from_str_exact_match_witness :
    (" debug" ∉ BuildProfile.build_profile_names) ∧
    ("PC99" ∉ SupportedPlatform.platform_names) ∧
    (∃ e, BuildProfile.from_str " debug" = Except.error e) ∧
    (∃ e, SupportedPlatform.from_str "PC99" = Except.error e) :=
  ⟨by decide, by decide,
    c2_from_str_exact_match.2.2.2.2.2 " debug" (by decide),
    c2_from_str_exact_match.2.2.2.2.1 "PC99" (by decide)⟩

/-- Claim C3: resolve merges property mappings in strict precedence order
Global, then Target-scoped, then Platform-scoped, then Profile-scoped, a
name in a higher-precedence layer replacing the same name from a
lower-precedence layer (within one layer the last binding of a repeated
name is the one in force); in particular, with Global holding a=1, the
target layer a=2 and b=3, the platform layer b=4 and the profile layer c=5,
resolving that triple yields exactly the mapping a=2, b=4, c=5. -/
theorem c3_resolve_precedence :
    (∀ (cfg : LayeredConfig) (t : SupportedTarget) (p : SupportedPlatform)
        (b : BuildProfile) (n : String),
      lookupProp (resolveProperties cfg t p b) n =
        firstSome (lookupLast (cfg.profile_layer b) n)
          (firstSome (lookupLast (cfg.platform_layer p) n)
            (firstSome (lookupLast (cfg.target_layer t) n)
              (lookupLast cfg.global n)))) ∧
    resolveProperties
      { global := [("a", FlatTomlValue.Integer 1)]
        target_layer := fun t =>
          if t = SupportedTarget.Armv7Sel4Fel4 then
            [("a", FlatTomlValue.Integer 2), ("b", FlatTomlValue.Integer 3)]
          else []
        platform_layer := fun p =>
          if p = SupportedPlatform.Sabre then [("b", FlatTomlValue.Integer 4)] else []
        profile_layer := fun b =>
          if b = BuildProfile.Release then [("c", FlatTomlValue.Integer 5)] else [] }
      SupportedTarget.Armv7Sel4Fel4 SupportedPlatform.Sabre BuildProfile.Release =
      [("a", FlatTomlValue.Integer 2), ("b", FlatTomlValue.Integer 4),
        ("c", FlatTomlValue.Integer 5)] := by
  constructor
  · intro cfg t p b n
    simp only [resolveProperties, lookupProp_mergeLayer]
    simp [lookupProp, firstSome_none_right]
  · rfl

/-- Claim C4: the identifier sets are closed with exactly the listed
members and canonical strings — SupportedTarget's three variants name
"x86_64-sel4-fel4", "armv7-sel4-fel4", "aarch64-sel4-fel4";
SupportedPlatform's three variants name "pc99", "sabre", "tx1";
BuildProfile's two variants name "debug", "release" — full_name is total,
and distinct variants map to distinct strings. -/
theorem c4_identifier_sets_closed :
    (∀ t : SupportedTarget, t ∈ SupportedTarget.targets) ∧
    SupportedTarget.targets.Nodup ∧
    SupportedTarget.target_names =
      ["x86_64-sel4-fel4", "armv7-sel4-fel4", "aarch64-sel4-fel4"] ∧
    SupportedTarget.targets.Pairwise (fun a b => a.full_name ≠ b.full_name) ∧
    (∀ p : SupportedPlatform, p ∈ SupportedPlatform.platforms) ∧
    SupportedPlatform.platforms.Nodup ∧
    SupportedPlatform.platform_names = ["pc99", "sabre", "tx1"] ∧
    SupportedPlatform.platforms.Pairwise (fun a b => a.full_name ≠ b.full_name) ∧
    (∀ b : BuildProfile, b ∈ BuildProfile.build_profiles) ∧
    BuildProfile.build_profiles.Nodup ∧
    BuildProfile.build_profile_names = ["debug", "release"] ∧
    BuildProfile.build_profiles.Pairwise (fun a b => a.full_name ≠ b.full_name) := by
  refine ⟨?_, ?_, ?_, ?_, ?_, ?_, ?_, ?_, ?_, ?_, ?_, ?_⟩ <;> decide

/-- Claim C5: for each identifier enum, the all-names list has length equal
to the number of variants of the enum, contains no duplicates, and its i-th
element is full_name of the i-th element of the all-variants list, in the
same order. -/
theorem c5_all_names_align :
    SupportedTarget.target_names.length = Fintype.card SupportedTarget ∧
    SupportedTarget.target_names.length = SupportedTarget.targets.length ∧
    SupportedTarget.target_names.Nodup ∧
    (∀ i : Nat, SupportedTarget.target_names[i]? =
      SupportedTarget.targets[i]?.map (fun t => t.full_name)) ∧
    SupportedPlatform.platform_names.length = Fintype.card SupportedPlatform ∧
    SupportedPlatform.platform_names.length = SupportedPlatform.platforms.length ∧
    SupportedPlatform.platform_names.Nodup ∧
    (∀ i : Nat, SupportedPlatform.platform_names[i]? =
      SupportedPlatform.platforms[i]?.map (fun p => p.full_name)) ∧
    BuildProfile.build_profile_names.length = Fintype.card BuildProfile ∧
    BuildProfile.build_profile_names.length = BuildProfile.build_profiles.length ∧
    BuildProfile.build_profile_names.Nodup ∧
    (∀ i : Nat, BuildProfile.build_profile_names[i]? =
      BuildProfile.build_profiles[i]?.map (fun b => b.full_name)) := by
  refine ⟨by decide, by decide, by decide, ?_, by decide, by decide, by decide, ?_,
    by decide, by decide, by decide, ?_⟩
  · intro i
    simp [SupportedTarget.target_names, List.getElem?_map]
  · intro i
    simp [SupportedPlatform.platform_names, List.getElem?_map]
  · intro i
    simp [BuildProfile.build_profile_names, List.getElem?_map]

/-- Claim C6: for each identifier enum the Display output of every variant
equals full_name, hence parse(display(x)) = Ok(x) for every valid x.
BuildProfile has no Display impl in src/types.rs, so its display is
modelled from spec section 4.1 (see `BuildProfile.display`). -/
theorem c6_display_roundtrip :
    (∀ t : SupportedTarget,
      t.display = t.full_name ∧ SupportedTarget.from_str t.display = Except.ok t) ∧
    (∀ p : SupportedPlatform,
      p.display = p.full_name ∧ SupportedPlatform.from_str p.display = Except.ok p) ∧
    (∀ b : BuildProfile,
      b.display = b.full_name ∧ BuildProfile.from_str b.display = Except.ok b) := by
  refine ⟨?_, ?_, ?_⟩ <;> decide

/-- Claim C7 counterexample: the claim says identifier parsing fails with a
structured UnknownIdentifier(kind, input) error carrying the offending
input together with the valid-name list. In the code each from_str has
error type String and returns the bare input: at input "zzz" all three
enums produce the literally identical error value "zzz", even though their
valid-name lists differ, so the error value carries neither a kind tag nor
any list of valid names. -/
theorem c7_unknown_identifier_counterexample :
    SupportedTarget.from_str "zzz" = Except.error "zzz" ∧
    SupportedPlatform.from_str "zzz" = Except.error "zzz" ∧
    BuildProfile.from_str "zzz" = Except.error "zzz" ∧
    SupportedTarget.target_names ≠ SupportedPlatform.platform_names ∧
    SupportedPlatform.platform_names ≠ BuildProfile.build_profile_names := by
  refine ⟨?_, ?_, ?_, ?_, ?_⟩ <;> decide

/-- Claim C7 as amended: when no variant matches, each of the three
from_str parsers fails with Err(input) whose payload is exactly the
offending input string, the same bare String value for all three enums; no
kind tag and no valid-name list is attached to the error. -/
theorem c7_unknown_identifier_amended :
    ∀ s : String, s ∉ SupportedTarget.target_names →
      s ∉ SupportedPlatform.platform_names →
      s ∉ BuildProfile.build_profile_names →
      SupportedTarget.from_str s = Except.error s ∧
      SupportedPlatform.from_str s = Except.error s ∧
      BuildProfile.from_str s = Except.error s :=
  fun s h1 h2 h3 =>
    ⟨target_from_str_not_mem s h1, platform_from_str_not_mem s h2,
      build_profile_from_str_not_mem s h3⟩

/-- Claim C7 amended witness at the concrete unknown identifier "sel4". -/
theorem c7_unknown_identifier_amended_witness :
    ("sel4" ∉ SupportedTarget.target_names) ∧
    ("sel4" ∉ SupportedPlatform.platform_names) ∧
    ("sel4" ∉ BuildProfile.build_profile_names) ∧
    (SupportedTarget.from_str "sel4" = Except.error "sel4" ∧
      SupportedPlatform.from_str "sel4" = Except.error "sel4" ∧
      BuildProfile.from_str "sel4" = Except.error "sel4") :=
  ⟨by decide, by decide, by decide,
    c7_unknown_identifier_amended "sel4" (by decide) (by decide) (by decide)⟩

/-- Claim C8: FlatTomlValue is a tagged union over exactly the five scalar
kinds String, Integer, Float, Boolean and Datetime; no FlatTomlValue maps
to a nested collection (array or table) of the general TOML value domain,
and hence every value stored in a Fel4Config properties mapping is flat. -/
theorem c8_flat_values_not_nested :
    (∀ v : FlatTomlValue,
      (∃ s, v = FlatTomlValue.String s) ∨ (∃ i, v = FlatTomlValue.Integer i) ∨
      (∃ f, v = FlatTomlValue.Float f) ∨ (∃ b, v = FlatTomlValue.Boolean b) ∨
      (∃ d, v = FlatTomlValue.Datetime d)) ∧
    (∀ v : FlatTomlValue, (flatToToml v).isNested = false) ∧
    (∀ (cfg : Fel4Config) (e : String × FlatTomlValue),
      e ∈ cfg.properties → (flatToToml e.2).isNested = false) := by
  refine ⟨?_, ?_, ?_⟩
  · intro v
    cases v with
    | String s => exact Or.inl ⟨s, rfl⟩
    | Integer i => exact Or.inr (Or.inl ⟨i, rfl⟩)
    | Float f => exact Or.inr (Or.inr (Or.inl ⟨f, rfl⟩))
    | Boolean b => exact Or.inr (Or.inr (Or.inr (Or.inl ⟨b, rfl⟩)))
    | Datetime d => exact Or.inr (Or.inr (Or.inr (Or.inr ⟨d, rfl⟩)))
  · intro v
    cases v <;> rfl
  · intro cfg e _
    obtain ⟨n, v⟩ := e
    cases v <;> rfl

/-- Claim C8 witness: a concrete Fel4Config with one stored property, whose
value is flat. -/
theorem c8_flat_values_not_nested_witness :
    (("heap-size", FlatTomlValue.Integer 1024) ∈
      (Fel4Config.mk "artifacts" "target_specs" SupportedTarget.X8664Sel4Fel4
        SupportedPlatform.PC99 BuildProfile.Debug
        [("heap-size", FlatTomlValue.Integer 1024)]).properties) ∧
    (flatToToml (FlatTomlValue.Integer 1024)).isNested = false :=
  ⟨by decide,
    c8_flat_values_not_nested.2.2
      (Fel4Config.mk "artifacts" "target_specs" SupportedTarget.X8664Sel4Fel4
        SupportedPlatform.PC99 BuildProfile.Debug
        [("heap-size", FlatTomlValue.Integer 1024)])
      ("heap-size", FlatTomlValue.Integer 1024) (by decide)⟩

/-- Claim C9 counterexample: FlatTomlProperty::new performs no validation,
so constructing a property with the empty string as name yields a property
whose name is empty, refuting the claim that every property built through
the public constructor has a non-empty name. -/
theorem c9_empty_name_counterexample :
    (FlatTomlProperty.new "" (FlatTomlValue.Integer 0)).name = "" := rfl

/-- Claim C9 as amended: FlatTomlProperty::new stores the given name and
value unchanged and enforces nothing, so the constructed property's name is
non-empty exactly when the caller supplied a non-empty name. -/
theorem c9_new_preserves_fields :
    ∀ (n : String) (v : FlatTomlValue),
      (FlatTomlProperty.new n v).name = n ∧ (FlatTomlProperty.new n v).value = v ∧
      ((FlatTomlProperty.new n v).name ≠ "" ↔ n ≠ "") :=
  fun _ _ => ⟨rfl, rfl, Iff.rfl⟩

/-- Claim C10: for every string s that is not a canonical name of the enum
being parsed, from_str returns Err(e) whose payload e is exactly the input
string s itself — the error type is a bare String with no kind tag and no
valid-name list. -/
theorem c10_error_payload_is_input :
    (∀ s : String, s ∉ SupportedTarget.target_names →
      SupportedTarget.from_str s = Except.error s) ∧
    (∀ s : String, s ∉ SupportedPlatform.platform_names →
      SupportedPlatform.from_str s = Except.error s) ∧
    (∀ s : String, s ∉ BuildProfile.build_profile_names →
      BuildProfile.from_str s = Except.error s) :=
  ⟨target_from_str_not_mem, platform_from_str_not_mem, build_profile_from_str_not_mem⟩

/-- Claim C10 witness at the concrete non-canonical input "x86_64". -/
theorem c10_error_payload_is_input_witness :
    ("x86_64" ∉ SupportedTarget.target_names) ∧
    SupportedTarget.from_str "x86_64" = Except.error "x86_64" :=
  ⟨by decide, c10_error_payload_is_input.1 "x86_64" (by decide)⟩
